import Mathlib

/-!
Shallow embedding of the hvac-controller control/decision layer.

Conventions of the embedding:
* Go `float64` temperatures, durations and time instants are modelled as `ℚ`
  (the code only adds, subtracts, compares and averages them; no float
  rounding is relied upon by any of the verified properties).
* `time.Time` instants and `time.Duration` values are both `ℚ` (seconds);
  `now.Sub(t)` becomes `now - t`.
* GPIO pin levels are an environment `PinEnv : Nat → Bool` (pin number to
  electrical level); `gpio.CurrentlyActive` derives logical activation from
  level and polarity exactly as `internal/gpio/gpio.go` does.
* Go's `math.Sqrt` appears only inside comparisons `stdDev < 2.0` and
  `|x| > 2*stdDev`; since both sides are nonnegative these are embedded as
  the equivalent squared comparisons `variance < 4` and `x^2 > 4*variance`.
* Side effects (db writes, notifications, shutdown) are modelled as data in
  the returned state.
-/

namespace Hvac

/-- Embeds `model.SystemMode` from `internal/model/model.go`. -/
inductive Mode where
  | off
  | heating
  | cooling
  | circulate
deriving DecidableEq, Repr

/-- Embeds `model.GPIOPin`. -/
structure GPIOPin where
  number : Nat
  activeHigh : Bool
deriving DecidableEq, Repr

/-- Embeds `model.Device`: name, pin, dwell times, online flag, last-changed stamp. -/
structure Device where
  name : String
  pin : GPIOPin
  minOn : ℚ
  minOff : ℚ
  online : Bool
  lastChanged : ℚ
deriving DecidableEq, Repr

/-- Electrical level of each pin number (the state `gpio.Read` observes). -/
def PinEnv : Type := Nat → Bool

/-- Embeds `gpio.CurrentlyActive`: a pin is logically active when its polarity
matches its current level (`pin.ActiveHigh == level`). -/
def currentlyActive (env : PinEnv) (pin : GPIOPin) : Bool :=
  pin.activeHigh == env pin.number

/-- Embeds `device.CanToggle` (authoritative version, `internal/device/device.go`
lines 190–197): reads the current physical activation state from the pin,
then compares elapsed time since `LastChanged` against `MinOn` when active,
`MinOff` when inactive. -/
def canToggle (env : PinEnv) (d : Device) (now : ℚ) : Bool :=
  let active := currentlyActive env d.pin
  if active then
    decide (now - d.lastChanged ≥ d.minOn)
  else
    decide (now - d.lastChanged ≥ d.minOff)

/-- Embeds `model.HeatPump` (embedded `Device` plus mode pin, primary flag,
rotation stamp). -/
structure HeatPump where
  device : Device
  modePin : GPIOPin
  isPrimary : Bool
  lastRotated : ℚ
deriving DecidableEq, Repr

/-- Embeds `model.Boiler`. -/
structure Boiler where
  device : Device
deriving DecidableEq, Repr

/-- Embeds `model.AirHandler`. -/
structure AirHandler where
  device : Device
  circPumpPin : GPIOPin
deriving DecidableEq, Repr

/-- Embeds `model.RadiantFloorLoop`. -/
structure RadiantFloorLoop where
  device : Device
deriving DecidableEq, Repr

/-- Embeds `model.Sensor`. -/
structure Sensor where
  id : String
  bus : String
deriving DecidableEq, Repr

/-- Embeds `model.Zone`. -/
structure Zone where
  id : String
  label : String
  setpoint : ℚ
  sensor : Sensor
  mode : Mode
deriving DecidableEq, Repr

/-! ## Buffer controller: thresholds, rotation, heat-source retrieval
(`internal/controllers/buffercontroller/buffercontroller.go`) -/

/-- Heat-source roles accepted by `GetThreshold` (any other string is an
immediate fatal shutdown before the threshold tables are consulted). -/
inductive Role where
  | primary
  | secondary
  | tertiary
deriving DecidableEq, Repr

/-- The configuration fields of `env.Cfg` used by the buffer controller. -/
structure BufferConfig where
  heatingThreshold : ℚ
  coolingThreshold : ℚ
  spread : ℚ
  secondaryMargin : ℚ
  tertiaryMargin : ℚ
deriving DecidableEq, Repr

/-- Embeds `buffercontroller.GetThreshold` (lines 172–245). Returns `none` where the
Go code calls `shutdown.ShutdownWithError` (tertiary requested in cooling
mode); the `off`/`circulate` default returns `0.0` as in the source. -/
def GetThreshold (cfg : BufferConfig) (role : Role) (mode : Mode)
    (active : Bool) : Option ℚ :=
  let baseHeat := cfg.heatingThreshold
  let baseCool := cfg.coolingThreshold
  let primaryHeatOn := baseHeat
  let primaryHeatOff := baseHeat + cfg.spread
  let secondaryHeatOn := baseHeat - cfg.secondaryMargin
  let secondaryHeatOff := secondaryHeatOn + cfg.spread
  let tertiaryHeatOn := baseHeat - cfg.tertiaryMargin
  let tertiaryHeatOff := tertiaryHeatOn + cfg.spread
  let primaryCoolOn := baseCool
  let primaryCoolOff := baseCool - cfg.spread
  let secondaryCoolOn := baseCool + cfg.secondaryMargin
  let secondaryCoolOff := secondaryCoolOn - cfg.spread
  match mode with
  | .heating =>
    match role with
    | .primary => some (if active then primaryHeatOff else primaryHeatOn)
    | .secondary => some (if active then secondaryHeatOff else secondaryHeatOn)
    | .tertiary => some (if active then tertiaryHeatOff else tertiaryHeatOn)
  | .cooling =>
    match role with
    | .primary => some (if active then primaryCoolOff else primaryCoolOn)
    | .secondary => some (if active then secondaryCoolOff else secondaryCoolOn)
    | .tertiary => none
  | _ => some 0

/-- The role margin named by the specification: 0 for primary,
`secondaryMargin` for secondary, `tertiaryMargin` for tertiary. -/
def roleMargin (cfg : BufferConfig) : Role → ℚ
  | .primary => 0
  | .secondary => cfg.secondaryMargin
  | .tertiary => cfg.tertiaryMargin

/-! ## Failsafe controller
(`internal/controllers/failsafecontroller/failsafecontroller.go`) -/

/-- Embeds `failsafecontroller.ignoredZones`: zones exempt from failsafe
evaluation. -/
def ignoredZones : List String := ["garage"]

/-- Embeds `failsafecontroller.isZoneIgnored`. -/
def isZoneIgnored (zoneID : String) : Bool :=
  ignoredZones.contains zoneID

/-- Embeds `failsafecontroller.ZoneState` (the fields `evaluateFailsafeActions`
reads: zone and its filtered temperature; the handler/loop pointers are only
consumed by the execution step, not by the decision). -/
structure ZoneState where
  zone : Zone
  temperature : ℚ
deriving DecidableEq, Repr

/-- Embeds `failsafecontroller.FailsafeAction`. -/
structure FailsafeAction where
  setOverride : Bool := false
  clearOverride : Bool := false
  overrideMode : Mode := .off
  triggerZone : String := ""
  triggerTemp : ℚ := 0
  activateZones : List (String × Mode) := []
  deactivateZones : List String := []
deriving DecidableEq, Repr

/-- The first-offender scan of `evaluateFailsafeActions` (lines 128–175):
skip ignored zones, break on the first zone strictly below `minTemp` or
strictly above `maxTemp`. -/
def firstOffender (zoneStates : List ZoneState) (minTemp maxTemp : ℚ) :
    Option ZoneState :=
  zoneStates.find? fun zs =>
    !isZoneIgnored zs.zone.id &&
      (decide (zs.temperature < minTemp) || decide (zs.temperature > maxTemp))

/-- Embeds `failsafecontroller.evaluateFailsafeActions` (lines 115–214). -/
def evaluateFailsafeActions (zoneStates : List ZoneState)
    (overrideActive : Bool) (minTemp maxTemp spread : ℚ) : FailsafeAction :=
  match firstOffender zoneStates minTemp maxTemp, overrideActive with
  | some z, false =>
    let requiredMode : Mode :=
      if z.temperature < minTemp then .heating else .cooling
    { setOverride := true
      overrideMode := requiredMode
      triggerZone := z.zone.id
      triggerTemp := z.temperature
      activateZones := [(z.zone.id, requiredMode)] }
  | none, true =>
    let safeMin := minTemp + spread
    let safeMax := maxTemp - spread
    let allZonesSafe := zoneStates.all fun zs =>
      isZoneIgnored zs.zone.id ||
        !(decide (zs.temperature < safeMin) || decide (zs.temperature > safeMax))
    if allZonesSafe then
      { clearOverride := true
        deactivateZones := zoneStates.map fun zs => zs.zone.id }
    else
      {}
  | _, _ => {}

/-! ## Heat-pump role rotation and heat-source retrieval
(`buffercontroller.RefreshSources`, `db.SwapPrimaryHeatPump`,
`buffercontroller.GetHeatSources`) -/

/-- Store effect of `db.SwapPrimaryHeatPump` (db/transactions.go lines
85–124) on the two heat-pump records: the current primary is demoted, the
other pump is promoted, and both `last_rotated` stamps are set to the
transaction time. Returns (demoted old primary, promoted new primary). -/
def swapPrimaryHeatPump (now : ℚ) (current next : HeatPump) :
    HeatPump × HeatPump :=
  ({ current with isPrimary := false, lastRotated := now },
   { next with isPrimary := true, lastRotated := now })

/-- Rotation decision of `buffercontroller.RefreshSources` (lines 266–280)
combined with the store effect of the `db.SwapPrimaryHeatPump` it invokes:
given the stored primary and secondary pump records, returns the stored
records after the cycle together with whether a rotation happened. The
remaining branches of `RefreshSources` (one pump online, none online,
tertiary filtering) never touch the stored role assignment. -/
def refreshRotation (rotationInterval now : ℚ)
    (primary secondary : HeatPump) : HeatPump × HeatPump × Bool :=
  if primary.device.online && secondary.device.online then
    if now - primary.lastRotated > rotationInterval then
      let swapped := swapPrimaryHeatPump now primary secondary
      (swapped.2, swapped.1, true)
    else
      (primary, secondary, false)
  else
    (primary, secondary, false)

/-- The fatal conditions `GetHeatSources` reports through
`shutdown.ShutdownWithError`. -/
inductive FatalShutdown where
  | multiplePrimaries
  | noPrimary
deriving DecidableEq, Repr

/-- The primary/secondary identification loop of
`buffercontroller.GetHeatSources` (lines 321–332): walks the heat-pump
list, shutting down on a second primary, remembering the last non-primary
as secondary. -/
def scanHeatPumps : List HeatPump → Option HeatPump → Option HeatPump →
    Except FatalShutdown (Option HeatPump × Option HeatPump)
  | [], primary, secondary => .ok (primary, secondary)
  | hp :: rest, primary, secondary =>
    if hp.isPrimary then
      match primary with
      | some _ => .error .multiplePrimaries
      | none => scanHeatPumps rest (some hp) secondary
    else
      scanHeatPumps rest primary (some hp)

/-- Embeds `buffercontroller.HeatSources` as returned by a successful
`GetHeatSources` (primary is non-nil on success). -/
structure GoHeatSources where
  primary : HeatPump
  secondary : Option HeatPump
  tertiary : Option Boiler
deriving DecidableEq, Repr

/-- Embeds `buffercontroller.GetHeatSources` (lines 309–351): identifies the
primary and secondary pumps, shuts down on zero or duplicated primaries,
and offers the first boiler as tertiary when online. -/
def getHeatSources (hps : List HeatPump) (boilers : List Boiler) :
    Except FatalShutdown GoHeatSources :=
  match scanHeatPumps hps none none with
  | .error e => .error e
  | .ok (none, _) => .error .noPrimary
  | .ok (some p, s) =>
    let tertiary : Option Boiler :=
      match boilers with
      | [] => none
      | b :: _ => if b.device.online then some b else none
    .ok ⟨p, s, tertiary⟩

/-! ## Zone distribution controller
(`internal/controllers/zonecontroller/zonecontroller.go`) -/

/-- The `switchThings` action map of `zonecontroller.evaluateZoneActions`
(all entries start `false`). -/
structure SwitchMap where
  activateBlower : Bool := false
  activatePump : Bool := false
  activateLoop : Bool := false
  deactivateBlower : Bool := false
  deactivatePump : Bool := false
  deactivateLoop : Bool := false
deriving DecidableEq, Repr

/-- The error returns of `evaluateZoneActions`. -/
inductive ZoneEvalError where
  | oppositeMode
  | noDistributionDevice
deriving DecidableEq, Repr

/-- Embeds `zonecontroller.isOppositeMode`. -/
def isOppositeMode (a b : Mode) : Bool :=
  (a == .heating && b == .cooling) || (a == .cooling && b == .heating)

/-- Embeds `zonecontroller.shouldBeOn`. -/
def shouldBeOn (zt threshold : ℚ) (mode : Mode) : Bool :=
  if mode == .heating then decide (zt < threshold)
  else decide (zt > threshold)

/-- Embeds `zonecontroller.evaluateZoneActions` (lines 218–363), returning the
action map together with the Go error value. -/
def evaluateZoneActions (blowerActive pumpActive loopActive : Bool)
    (handler : Option AirHandler) (loop : Option RadiantFloorLoop)
    (canToggleHandler canToggleLoop : Bool) (temp : ℚ) (mode sysMode : Mode)
    (threshold secondaryThreshold : ℚ) : SwitchMap × Option ZoneEvalError :=
  if mode == .off then
    ({ deactivateBlower := blowerActive && canToggleHandler
       deactivatePump := pumpActive && canToggleHandler
       deactivateLoop := loopActive && canToggleLoop }, none)
  else if isOppositeMode mode sysMode then
    ({}, some .oppositeMode)
  else if handler.isNone && loop.isNone then
    ({}, some .noDistributionDevice)
  else
    let skipHandler := !(handler.isSome && canToggleHandler)
    let skipLoop := !(loop.isSome && canToggleLoop)
    if skipHandler && skipLoop then
      ({}, none)
    else if mode == .circulate then
      match handler with
      | none => ({}, none)
      | some _ =>
        if blowerActive then
          if pumpActive then ({ deactivatePump := true }, none)
          else ({}, none)
        else ({ activateBlower := true }, none)
    else
      let shouldPrimary := shouldBeOn temp threshold mode
      let shouldSecondary := shouldBeOn temp secondaryThreshold mode
      match handler, loop with
      | none, some _ =>
        if mode == .heating then
          ({ activateLoop := shouldPrimary && !loopActive
             deactivateLoop := !shouldPrimary && loopActive }, none)
        else ({}, none)
      | some _, none =>
        ({ activateBlower := shouldPrimary && !pumpActive
           activatePump := shouldPrimary && !pumpActive
           deactivateBlower := !shouldPrimary && pumpActive
           deactivatePump := !shouldPrimary && pumpActive }, none)
      | some _, some _ =>
        if mode == .cooling then
          ({ activateBlower := shouldPrimary && !pumpActive
             activatePump := shouldPrimary && !pumpActive
             deactivateBlower := !shouldPrimary && pumpActive
             deactivatePump := !shouldPrimary && pumpActive }, none)
        else
          ({ activateLoop := shouldPrimary && !loopActive
             deactivateLoop := !shouldPrimary && loopActive
             activateBlower := shouldSecondary && !pumpActive
             activatePump := shouldSecondary && !pumpActive
             deactivateBlower := !shouldSecondary && pumpActive
             deactivatePump := !shouldSecondary && pumpActive }, none)
      | none, none => ({}, none)

/-- The device commands `RunZoneController` can issue in one cycle. -/
inductive DevCmd where
  | activateBlower
  | deactivateBlower
  | activateAirHandler
  | deactivateAirHandler
  | activateLoop
  | deactivateLoop
deriving DecidableEq, Repr

/-- The command-emission segment of `zonecontroller.RunZoneController`
(lines 142–212): on an evaluation error everything present is deactivated
directly (only the blower deactivation checks the recirculation flag); with
no error the switch map drives the commands, again with the blower
deactivation gated on recirculation. -/
def zoneCycleCommands (evalResult : SwitchMap × Option ZoneEvalError)
    (handlerPresent loopPresent recircActive : Bool) : List DevCmd :=
  match evalResult.2 with
  | some _ =>
    (if handlerPresent then
      [DevCmd.deactivateAirHandler] ++
        (if recircActive then [] else [DevCmd.deactivateBlower])
     else []) ++
    (if loopPresent then [DevCmd.deactivateLoop] else [])
  | none =>
    let m := evalResult.1
    (if handlerPresent then
      (if m.activateBlower then [DevCmd.activateBlower] else []) ++
      (if m.deactivateBlower then
        (if recircActive then [] else [DevCmd.deactivateBlower]) else []) ++
      (if m.activatePump then [DevCmd.activateAirHandler] else []) ++
      (if m.deactivatePump then [DevCmd.deactivateAirHandler] else [])
     else []) ++
    (if loopPresent then
      (if m.activateLoop then [DevCmd.activateLoop] else []) ++
      (if m.deactivateLoop then [DevCmd.deactivateLoop] else [])
     else [])

/-! ## Temperature anomaly filter (`internal/temperature`, the service
version with anomaly detection: `processReading`, `GetTemperature` and
their helpers). Wall-clock reads inside the helpers are modelled with the
cycle timestamp that `readAllSensors` passes to `processReading`. -/

/-- Embeds `temperature.Reading`. -/
structure Reading where
  temperature : ℚ
  timestamp : ℚ
  valid : Bool
deriving DecidableEq, Repr

/-- Embeds `temperature.ReadingHistory`. -/
structure ReadingHistory where
  readings : List Reading
  maxSize : Nat
  anomalyCount : Nat
  recoveryCount : Nat
  disabled : Bool
  disabledAt : ℚ
  lastGoodReading : Reading
  sensorZone : String
deriving DecidableEq, Repr

/-- Configuration fields of the temperature service (production values come
from `env.Cfg`; `NewServiceForTest` pins 5.0 / 25.0 / 6 / 20 with a 30 s
poll interval). -/
structure FilterConfig where
  maxTempDelta : ℚ
  garageTempDelta : ℚ
  maxAnomalies : Nat
  historySize : Nat
  pollInterval : ℚ
deriving DecidableEq, Repr

/-- The notification events the filter can send. -/
inductive Notif where
  | sensorFailure (zone : String) (currentTemp lastGoodTemp : ℚ)
  | sensorRecovery (zone : String) (temp : ℚ)
deriving DecidableEq, Repr

/-- The observable service state touched by `processReading`: the published
per-sensor readings and per-sensor histories, plus the notification and
shutdown effects. -/
structure FilterState where
  readings : List (String × Reading) := []
  history : List (String × ReadingHistory) := []
  notifications : List Notif := []
  shutdownCalled : Bool := false
deriving DecidableEq, Repr

/-- Association-list update modelling Go map assignment. -/
def setEntry {α : Type} : List (String × α) → String → α → List (String × α)
  | [], k, v => [(k, v)]
  | (k', v') :: rest, k, v =>
    if k' = k then (k, v) :: rest else (k', v') :: setEntry rest k v

/-- Per-zone steady-state delta threshold (`maxTempDelta`, or
`garageTempDelta` for the garage). -/
def zoneThreshold (cfg : FilterConfig) (zone : String) : ℚ :=
  if zone = "garage" then cfg.garageTempDelta else cfg.maxTempDelta

/-- Embeds `Service.isAnomalousReading`. -/
def isAnomalousReading (cfg : FilterConfig) (h : ReadingHistory)
    (temp : ℚ) : Bool :=
  if h.lastGoodReading.temperature = 0 then false
  else
    decide (|temp - h.lastGoodReading.temperature| >
      zoneThreshold cfg h.sensorZone)

/-- Embeds `Service.isGoodReading`. -/
def isGoodReading (cfg : FilterConfig) (h : ReadingHistory)
    (temp : ℚ) : Bool :=
  if h.lastGoodReading.temperature = 0 then true
  else
    decide (|temp - h.lastGoodReading.temperature| ≤
      zoneThreshold cfg h.sensorZone)

/-- Mean of a list of rationals (the Go divisions are only reached on
non-empty slices). -/
def listMean (l : List ℚ) : ℚ := l.sum / l.length

/-- Population variance about the mean, as computed in the Go loops. -/
def listVariance (l : List ℚ) : ℚ :=
  (l.map fun t => (t - listMean l) * (t - listMean l)).sum / l.length

/-- The monotonic-drift scan of `detectStableNewBaseline`: walk consecutive
deltas, failing on a reversal beyond 0.5 in the established direction
(Go breaks before updating `maxDelta`), otherwise tracking the largest
absolute delta. -/
def monoScan (increasing : Bool) : List ℚ → ℚ → ℚ → Bool × ℚ
  | [], _, maxDelta => (true, maxDelta)
  | t :: rest, prev, maxDelta =>
    let delta := t - prev
    if increasing ∧ delta < -(1/2) then (false, maxDelta)
    else if ¬increasing ∧ delta > 1/2 then (false, maxDelta)
    else
      monoScan increasing rest t
        (if |delta| > maxDelta then |delta| else maxDelta)

/-- Embeds `Service.detectStableNewBaseline`; `stdDev < 2.0` is embedded as
`variance < 4` (both sides of the source comparison are nonnegative). The
`newTemp` parameter of the Go function is never read (the new reading is
already in the history). -/
def detectStableNewBaseline (cfg : FilterConfig)
    (h : ReadingHistory) : Bool :=
  if h.anomalyCount < 1 then false
  else if h.readings.length < cfg.maxAnomalies + 2 then false
  else
    let recentTemps :=
      (h.readings.drop (h.readings.length - 3)).map fun r => r.temperature
    let mean := listMean recentTemps
    if listVariance recentTemps < 4 then true
    else
      let anomalousTemps :=
        (h.readings.drop cfg.maxAnomalies).map fun r => r.temperature
      if h.anomalyCount ≥ 4 then false
      else if anomalousTemps.length < 2 then false
      else
        let totalDeviation := |mean - h.lastGoodReading.temperature|
        let maxDeviation : ℚ := if h.sensorZone = "garage" then 30 else 15
        if totalDeviation > maxDeviation then false
        else
          match anomalousTemps with
          | t0 :: t1 :: rest =>
            let scan := monoScan (decide (t1 > t0)) (t1 :: rest) t0 0
            scan.1 && decide (scan.2 > 0) &&
              decide (scan.2 ≤ zoneThreshold cfg h.sensorZone)
          | _ => false

/-- The backwards scan of `analyzeBootstrapHistory`: starting from the most
recent bootstrap reading (`l` is given most-recent-first), count outliers
and remember the first non-outlier temperature seen while the running value
is still zero (the Go `lastGoodTemp == 0` guard). -/
def bootScan (isOut : ℚ → Bool) : List ℚ → Nat → ℚ → Nat × ℚ
  | [], count, lastGood => (count, lastGood)
  | t :: rest, count, lastGood =>
    if isOut t then bootScan isOut rest (count + 1) lastGood
    else if lastGood = 0 then bootScan isOut rest count t
    else bootScan isOut rest count lastGood

/-- Embeds `Service.analyzeBootstrapHistory`; the outlier test
`|t − mean| > 2*stdDev` is embedded as `(t − mean)^2 > 4*variance`. -/
def analyzeBootstrapHistory (cfg : FilterConfig) (now : ℚ)
    (h : ReadingHistory) : ReadingHistory :=
  if h.readings.length ≠ cfg.maxAnomalies then h
  else
    let temps := h.readings.map fun r => r.temperature
    let mean := listMean temps
    let variance := listVariance temps
    let isOut : ℚ → Bool := fun t =>
      decide ((t - mean) * (t - mean) > 4 * variance)
    let scan := bootScan isOut temps.reverse 0 0
    let lastGood : Reading :=
      if scan.2 > 0 then ⟨scan.2, now, true⟩ else ⟨mean, now, true⟩
    { h with lastGoodReading := lastGood, anomalyCount := scan.1 }

/-- Embeds `Service.addToHistory` (bounded buffer: drop the oldest when full). -/
def addToHistory (h : ReadingHistory) (r : Reading) : ReadingHistory :=
  if h.readings.length ≥ h.maxSize then
    { h with readings := h.readings.tail ++ [r] }
  else
    { h with readings := h.readings ++ [r] }

/-- Embeds `Service.checkDisableThreshold`: returns the updated history, the
disable notification if one fires, and whether the buffer-tank shutdown
fires. -/
def checkDisableThreshold (cfg : FilterConfig) (now : ℚ)
    (h : ReadingHistory) (temp : ℚ) :
    ReadingHistory × Option Notif × Bool :=
  if h.anomalyCount ≥ cfg.maxAnomalies ∧ h.disabled = false then
    ({ h with disabled := true, disabledAt := now },
     some (.sensorFailure h.sensorZone temp h.lastGoodReading.temperature),
     h.sensorZone == "buffer_tank")
  else (h, none, false)

/-- The Go zero-value `ReadingHistory` created on first contact with a
sensor (zero `Reading` has temperature 0 and `Valid = false`). -/
def newHistory (cfg : FilterConfig) (sensorZone : String) : ReadingHistory :=
  { readings := [], maxSize := cfg.historySize, anomalyCount := 0,
    recoveryCount := 0, disabled := false, disabledAt := 0,
    lastGoodReading := ⟨0, 0, false⟩, sensorZone := sensorZone }

/-- Embeds `Service.processReading`: returns whether the reading was accepted,
together with the updated service state. -/
def processReading (cfg : FilterConfig) (s : FilterState)
    (sensorID sensorZone : String) (temp timestamp : ℚ) :
    Bool × FilterState :=
  let history0 := (s.history.lookup sensorID).getD (newHistory cfg sensorZone)
  let newReading : Reading := ⟨temp, timestamp, decide (temp > 0)⟩
  if newReading.valid = false then
    let h1 := { history0 with anomalyCount := history0.anomalyCount + 1 }
    let res := checkDisableThreshold cfg timestamp h1 temp
    (false,
      { s with
          history := setEntry s.history sensorID res.1
          notifications := s.notifications ++ res.2.1.toList
          shutdownCalled := s.shutdownCalled || res.2.2 })
  else if history0.readings.length < cfg.maxAnomalies then
    let h1 := { history0 with
        readings := history0.readings ++ [newReading]
        lastGoodReading := newReading }
    let h2 :=
      if h1.readings.length = cfg.maxAnomalies then
        analyzeBootstrapHistory cfg timestamp h1
      else h1
    (true,
      { s with
          history := setEntry s.history sensorID h2
          readings := setEntry s.readings sensorID newReading })
  else if history0.disabled then
    if isGoodReading cfg history0 temp then
      if history0.recoveryCount + 1 ≥ cfg.maxAnomalies then
        let h1 := addToHistory
          { history0 with
              disabled := false,
              anomalyCount := 0,
              recoveryCount := 0,
              lastGoodReading := newReading } newReading
        (true,
          { s with
              history := setEntry s.history sensorID h1
              readings := setEntry s.readings sensorID newReading
              notifications :=
                s.notifications ++ [.sensorRecovery sensorZone temp] })
      else
        let h1 := addToHistory
          { history0 with recoveryCount := history0.recoveryCount + 1 }
          newReading
        (true,
          { s with
              history := setEntry s.history sensorID h1
              readings := setEntry s.readings sensorID newReading })
    else
      let h1 := { history0 with recoveryCount := 0 }
      (false,
        { s with
            history := setEntry s.history sensorID h1
            readings :=
              setEntry s.readings sensorID history0.lastGoodReading })
  else if isAnomalousReading cfg history0 temp then
    let h1 := addToHistory history0 newReading
    if detectStableNewBaseline cfg h1 then
      let h2 := { h1 with anomalyCount := 0, lastGoodReading := newReading }
      (true,
        { s with
            history := setEntry s.history sensorID h2
            readings := setEntry s.readings sensorID newReading })
    else
      let h2 := { h1 with anomalyCount := h1.anomalyCount + 1 }
      let res := checkDisableThreshold cfg timestamp h2 temp
      (false,
        { s with
            history := setEntry s.history sensorID res.1
            notifications := s.notifications ++ res.2.1.toList
            shutdownCalled := s.shutdownCalled || res.2.2
            readings :=
              setEntry s.readings sensorID history0.lastGoodReading })
  else
    let h1 := { history0 with
        anomalyCount :=
          if history0.readings.length > cfg.maxAnomalies then 0
          else history0.anomalyCount
        recoveryCount := 0
        lastGoodReading := newReading }
    let h2 := addToHistory h1 newReading
    (true,
      { s with
          history := setEntry s.history sensorID h2
          readings := setEntry s.readings sensorID newReading })

/-- Embeds `Service.GetTemperature`: returns `(0, false)` for a missing, stale (older than
twice the poll interval) or invalid stored reading, otherwise the stored
temperature with validity `true`. -/
def getTemperature (cfg : FilterConfig) (s : FilterState)
    (sensorID : String) (now : ℚ) : ℚ × Bool :=
  match s.readings.lookup sensorID with
  | none => (0, false)
  | some r =>
    if now - r.timestamp > 2 * cfg.pollInterval then (0, false)
    else if r.valid = false then (0, false)
    else (r.temperature, true)

/-- Run a sequence of readings for one sensor at fixed intervals (the test
harness feeds readings 30 s apart); returns the per-reading accepted flags
and the final state. -/
def runReadings (cfg : FilterConfig) (sensorID sensorZone : String)
    (step : ℚ) : ℚ → FilterState → List ℚ → List Bool × FilterState
  | _, s, [] => ([], s)
  | t0, s, temp :: rest =>
    let res := processReading cfg s sensorID sensorZone temp t0
    let tail := runReadings cfg sensorID sensorZone step (t0 + step)
      res.2 rest
    (res.1 :: tail.1, tail.2)

/-- The configuration `NewServiceForTest` pins: delta 5 °F (25 °F garage),
6 anomalies to disable, history of 20, 30 s poll. -/
def testFilterConfig : FilterConfig := ⟨5, 25, 6, 20, 30⟩

/-- The twelve (temperature, timestamp) pairs of the disable scenario
(bootstrap `[70,71,70.5,71,70,71.5]`, then `[45,40,38,35,32,30]`, 30 s
apart). -/
def c4Temps : List (ℚ × ℚ) :=
  [(70, 0), (71, 30), (141/2, 60), (71, 90), (70, 120), (143/2, 150),
   (45, 180), (40, 210), (38, 240), (35, 270), (32, 300), (30, 330)]

/-- History of the disable scenario after `n` readings. -/
def c4Hist (n count : Nat) (dis : Bool) (disAt : ℚ) (lg : Reading) :
    ReadingHistory :=
  ⟨(c4Temps.take n).map (fun p => ⟨p.1, p.2, true⟩), 20, count, 0, dis,
    disAt, lg, "main_floor"⟩

/-- Service state of the disable scenario. -/
def c4St (h : ReadingHistory) (pub : Reading) (notifs : List Notif) :
    FilterState :=
  ⟨[("main_floor_sensor", pub)], [("main_floor_sensor", h)], notifs, false⟩

/-- The last-good baseline the bootstrap analysis fixes (≈71 °F). -/
def lg6 : Reading := ⟨143/2, 150, true⟩

/-- The seven (temperature, timestamp) pairs of the bootstrap-outlier
scenario (`[45, 67, 67, 68, 67, 66]` then a steady 67). -/
def c9Temps : List (ℚ × ℚ) :=
  [(45, 0), (67, 30), (67, 60), (68, 90), (67, 120), (66, 150), (67, 180)]

/-- History of the bootstrap-outlier scenario after `n` readings (the
sensor never disables here). -/
def c9Hist (n count : Nat) (lg : Reading) : ReadingHistory :=
  ⟨(c9Temps.take n).map (fun p => ⟨p.1, p.2, true⟩), 20, count, 0, false, 0,
    lg, "basement"⟩

/-- Service state of the bootstrap-outlier scenario. -/
def c9St (h : ReadingHistory) (pub : Reading) : FilterState :=
  ⟨[("basement_sensor", pub)], [("basement_sensor", h)], [], false⟩

/-- A concrete air handler for zone-controller witnesses. -/
def exHandler : AirHandler :=
  ⟨⟨"air_handler_1", ⟨5, true⟩, 300, 300, true, 0⟩, ⟨6, true⟩⟩

/-- A concrete radiant loop for zone-controller witnesses. -/
def exLoop : RadiantFloorLoop :=
  ⟨⟨"radiant_loop_1", ⟨12, true⟩, 300, 300, true, 0⟩⟩

/-- A concrete failsafe zone state for witnesses and counterexamples. -/
def exZone (zid : String) (t : ℚ) : ZoneState :=
  ⟨⟨zid, zid, 70, ⟨zid, "w1-bus"⟩, .off⟩, t⟩

/-- A concrete online heat pump marked primary, for rotation and
cardinality witnesses. -/
def pumpA : HeatPump :=
  ⟨⟨"heat_pump_1", ⟨17, true⟩, 900, 900, true, 0⟩, ⟨27, true⟩, true, 0⟩

/-- A concrete online heat pump not marked primary. -/
def pumpB : HeatPump :=
  ⟨⟨"heat_pump_2", ⟨22, true⟩, 900, 900, true, 0⟩, ⟨23, true⟩, false, 0⟩

end Hvac

namespace Hvac

/-! ## Claim theorems (first group) -/

/-- C1: `CanToggle(device, now)` is true exactly when `now - lastChanged` is
at least the dwell time selected by the device's current physical activation
state (`minOn` when the pin is active, `minOff` when inactive); equivalently
it is false iff the elapsed time is below that dwell time. The embedding is
a pure function of the pin environment, so the device is not modified. -/
theorem canToggle_dwell_spec (env : PinEnv) (d : Device) (now : ℚ) :
    (canToggle env d now = true ↔
      now - d.lastChanged ≥
        (if currentlyActive env d.pin then d.minOn else d.minOff)) ∧
    (canToggle env d now = false ↔
      now - d.lastChanged <
        (if currentlyActive env d.pin then d.minOn else d.minOff)) := by
  unfold canToggle
  by_cases h : currentlyActive env d.pin = true
  · simp [h]
  · simp [Bool.not_eq_true] at h
    simp [h]

/-- C3: for every role/mode pair accepted by `GetThreshold`, the inactive
("on") threshold is the base threshold adjusted by the role margin
(`baseHeat − margin` in heating, `baseCool + margin` in cooling, tertiary
being rejected in cooling), the active ("off") threshold overshoots it by
exactly `spread` (above in heating, below in cooling). -/
theorem GetThreshold_hysteresis_spec (cfg : BufferConfig) (role : Role) :
    (GetThreshold cfg role .heating false =
        some (cfg.heatingThreshold - roleMargin cfg role)) ∧
    (GetThreshold cfg role .heating true =
        some ((cfg.heatingThreshold - roleMargin cfg role) + cfg.spread)) ∧
    (role ≠ .tertiary →
      GetThreshold cfg role .cooling false =
        some (cfg.coolingThreshold + roleMargin cfg role) ∧
      GetThreshold cfg role .cooling true =
        some ((cfg.coolingThreshold + roleMargin cfg role) - cfg.spread)) ∧
    (GetThreshold cfg .tertiary .cooling false = none) := by
  cases role <;>
    simp [GetThreshold, roleMargin]

/-- Witness for C3: evaluated at a concrete configuration and the secondary
role in cooling mode, discharging the `role ≠ tertiary` hypothesis. -/
theorem GetThreshold_hysteresis_spec_witness :
    GetThreshold ⟨110, 45, 3, 5, 10⟩ .secondary .cooling false = some 50 ∧
    GetThreshold ⟨110, 45, 3, 5, 10⟩ .secondary .cooling true = some 47 := by
  have h := GetThreshold_hysteresis_spec ⟨110, 45, 3, 5, 10⟩ .secondary
  have h2 := h.2.2.1 (by decide)
  refine ⟨?_, ?_⟩
  · rw [h2.1]; norm_num [roleMargin]
  · rw [h2.2]; norm_num [roleMargin]

/-- Case lemma: a first offender with no active override activates the
override for the offending zone. -/
theorem evalFA_some_false (zs : List ZoneState) (minT maxT spread : ℚ)
    (z : ZoneState) (hfo : firstOffender zs minT maxT = some z) :
    evaluateFailsafeActions zs false minT maxT spread =
      { setOverride := true
        overrideMode := if z.temperature < minT then .heating else .cooling
        triggerZone := z.zone.id
        triggerTemp := z.temperature
        activateZones :=
          [(z.zone.id,
            if z.temperature < minT then Mode.heating else Mode.cooling)] } := by
  unfold evaluateFailsafeActions
  rw [hfo]

/-- Case lemma: an offender while the override is already active takes no
state-transition action. -/
theorem evalFA_some_true (zs : List ZoneState) (minT maxT spread : ℚ)
    (z : ZoneState) (hfo : firstOffender zs minT maxT = some z) :
    evaluateFailsafeActions zs true minT maxT spread = {} := by
  unfold evaluateFailsafeActions
  rw [hfo]

/-- Case lemma: no offender and no active override takes no action. -/
theorem evalFA_none_false (zs : List ZoneState) (minT maxT spread : ℚ)
    (hfo : firstOffender zs minT maxT = none) :
    evaluateFailsafeActions zs false minT maxT spread = {} := by
  unfold evaluateFailsafeActions
  rw [hfo]

/-- Case lemma: with the override active and no offender, the action is
determined by the stricter all-zones-safe check. -/
theorem evalFA_none_true (zs : List ZoneState) (minT maxT spread : ℚ)
    (hfo : firstOffender zs minT maxT = none) :
    evaluateFailsafeActions zs true minT maxT spread =
      (if (zs.all fun z =>
            isZoneIgnored z.zone.id ||
              !(decide (z.temperature < minT + spread) ||
                decide (z.temperature > maxT - spread))) then
        { clearOverride := true
          deactivateZones := zs.map fun z => z.zone.id }
      else {}) := by
  unfold evaluateFailsafeActions
  rw [hfo]

/-- C2: with no override active, `evaluateFailsafeActions` sets an override
iff some non-exempt zone is outside `[minTemp, maxTemp]`; the first offender
in zone-list order supplies trigger zone, trigger temperature and required
mode (heating below `minTemp`, cooling above `maxTemp`). With an override
active and no zone violating the hard bounds, it clears the override iff
every non-exempt zone lies within `[minTemp+spread, maxTemp−spread]`, and on
clearing it marks every zone state's distributors for deactivation, exempt
zones included. Exempt zones appear in neither condition. -/
theorem evaluateFailsafeActions_spec (zs : List ZoneState)
    (minT maxT spread : ℚ) :
    ((evaluateFailsafeActions zs false minT maxT spread).setOverride = true ↔
      ∃ z ∈ zs, isZoneIgnored z.zone.id = false ∧
        (z.temperature < minT ∨ z.temperature > maxT)) ∧
    (∀ z, firstOffender zs minT maxT = some z →
      (evaluateFailsafeActions zs false minT maxT spread).triggerZone =
          z.zone.id ∧
      (evaluateFailsafeActions zs false minT maxT spread).triggerTemp =
          z.temperature ∧
      (evaluateFailsafeActions zs false minT maxT spread).overrideMode =
          (if z.temperature < minT then Mode.heating else Mode.cooling)) ∧
    (firstOffender zs minT maxT = none →
      ((evaluateFailsafeActions zs true minT maxT spread).clearOverride
          = true ↔
        ∀ z ∈ zs, isZoneIgnored z.zone.id = false →
          minT + spread ≤ z.temperature ∧ z.temperature ≤ maxT - spread)) ∧
    ((evaluateFailsafeActions zs true minT maxT spread).clearOverride
        = true →
      (evaluateFailsafeActions zs true minT maxT spread).deactivateZones =
        zs.map fun z => z.zone.id) := by
  refine ⟨?_, ?_, ?_, ?_⟩
  · constructor
    · intro hset
      rcases hfo : firstOffender zs minT maxT with _ | z
      · rw [evalFA_none_false zs minT maxT spread hfo] at hset
        simp at hset
      · have hmem := List.mem_of_find?_eq_some hfo
        have hp := List.find?_some hfo
        simp only [Bool.and_eq_true, Bool.or_eq_true, Bool.not_eq_true',
          decide_eq_true_eq] at hp
        exact ⟨z, hmem, hp.1, hp.2⟩
    · rintro ⟨z, hmem, hig, hout⟩
      rcases hfo : firstOffender zs minT maxT with _ | w
      · exfalso
        rw [firstOffender, List.find?_eq_none] at hfo
        have := hfo z hmem
        simp only [Bool.and_eq_true, Bool.or_eq_true, Bool.not_eq_true',
          decide_eq_true_eq, not_and, not_or] at this
        rcases hout with h | h
        · exact absurd h (this hig).1
        · exact absurd h (this hig).2
      · rw [evalFA_some_false zs minT maxT spread w hfo]
  · intro z hfo
    rw [evalFA_some_false zs minT maxT spread z hfo]
    exact ⟨rfl, rfl, rfl⟩
  · intro hfo
    rw [evalFA_none_true zs minT maxT spread hfo]
    constructor
    · intro hclear
      by_cases hall : (zs.all fun z =>
          isZoneIgnored z.zone.id ||
            !(decide (z.temperature < minT + spread) ||
              decide (z.temperature > maxT - spread))) = true
      · intro z hmem hig
        have := (List.all_eq_true.mp hall) z hmem
        simp only [hig, Bool.false_or, Bool.not_eq_true', Bool.or_eq_false_iff,
          decide_eq_false_iff_not] at this
        exact ⟨le_of_not_lt this.1, le_of_not_lt this.2⟩
      · rw [if_neg hall] at hclear
        exact absurd hclear (by simp)
    · intro hsafe
      have hall : (zs.all fun z =>
          isZoneIgnored z.zone.id ||
            !(decide (z.temperature < minT + spread) ||
              decide (z.temperature > maxT - spread))) = true := by
        rw [List.all_eq_true]
        intro z hmem
        by_cases hig : isZoneIgnored z.zone.id = true
        · simp [hig]
        · have h := hsafe z hmem (by simpa using hig)
          simp [hig, not_lt.mpr h.1, not_lt.mpr h.2]
      rw [if_pos hall]
  · intro hclear
    rcases hfo : firstOffender zs minT maxT with _ | z
    · rw [evalFA_none_true zs minT maxT spread hfo] at hclear ⊢
      by_cases hall : (zs.all fun z =>
          isZoneIgnored z.zone.id ||
            !(decide (z.temperature < minT + spread) ||
              decide (z.temperature > maxT - spread))) = true
      · rw [if_pos hall]
      · rw [if_neg hall] at hclear
        exact absurd hclear (by simp)
    · rw [evalFA_some_true zs minT maxT spread z hfo] at hclear
      simp at hclear

/-- Witness for C2, at the specification's reference numbers
(`minTemp=50, maxTemp=85, spread=2`): a zone at 49.9 °F triggers a heating
override, and with the override active all zones at 52–83 °F clear it. -/
theorem evaluateFailsafeActions_spec_witness :
    (evaluateFailsafeActions [exZone "main_floor" (499/10)] false
        50 85 2).setOverride = true ∧
    (evaluateFailsafeActions [exZone "main_floor" (499/10)] false
        50 85 2).overrideMode = Mode.heating ∧
    (evaluateFailsafeActions [exZone "basement" 52, exZone "main_floor" 83]
        true 50 85 2).clearOverride = true := by
  have h1 := evaluateFailsafeActions_spec [exZone "main_floor" (499/10)]
    50 85 2
  have h2 := evaluateFailsafeActions_spec
    [exZone "basement" 52, exZone "main_floor" 83] 50 85 2
  have hfo : firstOffender [exZone "main_floor" (499/10)] 50 85 =
      some (exZone "main_floor" (499/10)) := by
    norm_num [firstOffender, List.find?, exZone, isZoneIgnored, ignoredZones]
    all_goals simp
  refine ⟨?_, ?_, ?_⟩
  · refine h1.1.mpr ⟨exZone "main_floor" (499/10), ?_, ?_, ?_⟩
    · simp
    · norm_num [exZone, isZoneIgnored, ignoredZones]
      all_goals decide
    · exact Or.inl (by norm_num [exZone])
  · have hmode := (h1.2.1 (exZone "main_floor" (499/10)) hfo).2.2
    rw [hmode]
    norm_num [exZone]
  · refine (h2.2.2.1 ?_).mpr ?_
    · norm_num [firstOffender, List.find?, exZone, isZoneIgnored, ignoredZones]
    · intro z hz _
      simp only [List.mem_cons, List.not_mem_nil, or_false] at hz
      rcases hz with rfl | rfl <;> norm_num [exZone]

/-- Counterexample to C5 as stated: with both pumps online and the elapsed
time since the primary's `lastRotated` exactly equal to the rotation
interval ("at least the interval" holds), `RefreshSources` does not rotate,
because the source compares with strict `>`
(`now.Sub(sources.Primary.LastRotated) > interval`). -/
theorem refreshRotation_boundary_cex :
    pumpA.device.online = true ∧ pumpB.device.online = true ∧
    (3600 : ℚ) - pumpA.lastRotated ≥ 3600 ∧
    refreshRotation 3600 3600 pumpA pumpB = (pumpA, pumpB, false) := by
  refine ⟨rfl, rfl, by norm_num [pumpA], ?_⟩
  norm_num [refreshRotation, pumpA, pumpB]

/-- C5 (amended): a refresh cycle rotates the stored heat-pump roles iff
both pumps are online and the elapsed time since the primary's
`lastRotated` is strictly greater than the rotation interval; a rotation
promotes the secondary and demotes the primary, stamping both pumps'
`lastRotated` with the current time, and any non-rotating cycle leaves the
stored role records unchanged. -/
theorem refreshRotation_spec (interval now : ℚ) (p s : HeatPump) :
    ((refreshRotation interval now p s).2.2 = true ↔
      (p.device.online = true ∧ s.device.online = true ∧
        now - p.lastRotated > interval)) ∧
    ((refreshRotation interval now p s).2.2 = true →
      refreshRotation interval now p s =
        ({ s with isPrimary := true, lastRotated := now },
         { p with isPrimary := false, lastRotated := now }, true)) ∧
    ((refreshRotation interval now p s).2.2 = false →
      refreshRotation interval now p s = (p, s, false)) := by
  unfold refreshRotation swapPrimaryHeatPump
  by_cases h1 : (p.device.online && s.device.online) = true
  · rw [Bool.and_eq_true] at h1
    by_cases h2 : now - p.lastRotated > interval
    · simp [h1.1, h1.2, h2]
    · simp [h1.1, h1.2, h2]
  · rw [Bool.and_eq_true] at h1
    rcases Decidable.not_and_iff_or_not.mp h1 with h | h <;>
      simp [Bool.not_eq_true] at h <;>
      simp [h]

/-- Witness for C5: one second past the interval, the cycle rotates and
restamps both pumps. -/
theorem refreshRotation_spec_witness :
    refreshRotation 3600 3601 pumpA pumpB =
      ({ pumpB with isPrimary := true, lastRotated := 3601 },
       { pumpA with isPrimary := false, lastRotated := 3601 }, true) := by
  refine (refreshRotation_spec 3600 3601 pumpA pumpB).2.1 ?_
  refine (refreshRotation_spec 3600 3601 pumpA pumpB).1.mpr
    ⟨rfl, rfl, ?_⟩
  norm_num [pumpA]

/-- Auxiliary: once a primary has been found, a further primary in the
remaining list is fatal. -/
theorem scanHeatPumps_some_pos (l : List HeatPump) :
    ∀ (p0 : HeatPump) (sec : Option HeatPump),
      0 < l.countP (fun hp => hp.isPrimary) →
      scanHeatPumps l (some p0) sec = .error .multiplePrimaries := by
  induction l with
  | nil => intro p0 sec h; simp at h
  | cons hp rest ih =>
    intro p0 sec h
    by_cases hp1 : hp.isPrimary = true
    · simp [scanHeatPumps, hp1]
    · rw [List.countP_cons] at h
      simp only [hp1, if_false, add_zero] at h
      simp only [scanHeatPumps, hp1, if_false, Bool.false_eq_true]
      exact ih p0 (some hp) h

/-- Auxiliary: once a primary has been found, a remaining list with no
primaries finishes successfully with that primary. -/
theorem scanHeatPumps_some_zero (l : List HeatPump) :
    ∀ (p0 : HeatPump) (sec : Option HeatPump),
      l.countP (fun hp => hp.isPrimary) = 0 →
      ∃ s, scanHeatPumps l (some p0) sec = .ok (some p0, s) := by
  induction l with
  | nil => intro p0 sec _; exact ⟨sec, rfl⟩
  | cons hp rest ih =>
    intro p0 sec h
    rw [List.countP_cons] at h
    by_cases hp1 : hp.isPrimary = true
    · simp [hp1] at h
    · simp only [hp1, if_false, add_zero] at h
      simp only [scanHeatPumps, hp1, if_false, Bool.false_eq_true]
      exact ih p0 (some hp) h

/-- Auxiliary: with no primary found yet, a list without primaries ends
with no primary. -/
theorem scanHeatPumps_none_zero (l : List HeatPump) :
    ∀ sec : Option HeatPump,
      l.countP (fun hp => hp.isPrimary) = 0 →
      ∃ s, scanHeatPumps l none sec = .ok (none, s) := by
  induction l with
  | nil => intro sec _; exact ⟨sec, rfl⟩
  | cons hp rest ih =>
    intro sec h
    rw [List.countP_cons] at h
    by_cases hp1 : hp.isPrimary = true
    · simp [hp1] at h
    · simp only [hp1, if_false, add_zero] at h
      simp only [scanHeatPumps, hp1, if_false, Bool.false_eq_true]
      exact ih (some hp) h

/-- Auxiliary: with no primary found yet, a list with exactly one primary
ends successfully with that primary. -/
theorem scanHeatPumps_none_one (l : List HeatPump) :
    ∀ sec : Option HeatPump,
      l.countP (fun hp => hp.isPrimary) = 1 →
      ∃ p s, scanHeatPumps l none sec = .ok (some p, s) ∧
        p ∈ l ∧ p.isPrimary = true := by
  induction l with
  | nil => intro sec h; simp at h
  | cons hp rest ih =>
    intro sec h
    rw [List.countP_cons] at h
    by_cases hp1 : hp.isPrimary = true
    · simp only [hp1, if_true] at h
      have hrest : rest.countP (fun hp => hp.isPrimary) = 0 := by omega
      obtain ⟨s, hs⟩ := scanHeatPumps_some_zero rest hp sec hrest
      refine ⟨hp, s, ?_, List.mem_cons_self hp rest, hp1⟩
      simpa [scanHeatPumps, hp1] using hs
    · simp only [hp1, if_false, add_zero] at h
      obtain ⟨p, s, hps, hmem, hprim⟩ := ih (some hp) h
      refine ⟨p, s, ?_, List.mem_cons_of_mem hp hmem, hprim⟩
      simpa [scanHeatPumps, hp1] using hps

/-- Auxiliary: with no primary found yet, two or more primaries are
fatal. -/
theorem scanHeatPumps_none_two (l : List HeatPump) :
    ∀ sec : Option HeatPump,
      2 ≤ l.countP (fun hp => hp.isPrimary) →
      scanHeatPumps l none sec = .error .multiplePrimaries := by
  induction l with
  | nil => intro sec h; simp at h
  | cons hp rest ih =>
    intro sec h
    rw [List.countP_cons] at h
    by_cases hp1 : hp.isPrimary = true
    · simp only [hp1, if_true] at h
      have hrest : 0 < rest.countP (fun hp => hp.isPrimary) := by omega
      simpa [scanHeatPumps, hp1] using
        scanHeatPumps_some_pos rest hp sec hrest
    · simp only [hp1, if_false, add_zero] at h
      simpa [scanHeatPumps, hp1] using ih (some hp) h

/-- C6: for every heat-pump set, `GetHeatSources` reaches a controlled
shutdown exactly when the number of pumps flagged primary is zero or more
than one; with exactly one primary it succeeds and returns that pump as the
primary heat source. -/
theorem getHeatSources_primary_cardinality (hps : List HeatPump)
    (boilers : List Boiler) :
    (hps.countP (fun hp => hp.isPrimary) ≠ 1 →
      ∃ e, getHeatSources hps boilers = .error e) ∧
    (hps.countP (fun hp => hp.isPrimary) = 1 →
      ∃ r, getHeatSources hps boilers = .ok r ∧
        r.primary ∈ hps ∧ r.primary.isPrimary = true) := by
  constructor
  · intro hne
    rcases Nat.lt_or_ge (hps.countP (fun hp => hp.isPrimary)) 1 with h | h
    · have h0 : hps.countP (fun hp => hp.isPrimary) = 0 := by omega
      obtain ⟨s, hs⟩ := scanHeatPumps_none_zero hps none h0
      exact ⟨.noPrimary, by unfold getHeatSources; rw [hs]⟩
    · have h2 : 2 ≤ hps.countP (fun hp => hp.isPrimary) := by omega
      have hs := scanHeatPumps_none_two hps none h2
      exact ⟨.multiplePrimaries, by unfold getHeatSources; rw [hs]⟩
  · intro h1
    obtain ⟨p, s, hps', hmem, hprim⟩ := scanHeatPumps_none_one hps none h1
    refine ⟨⟨p, s, match boilers with
      | [] => none
      | b :: _ => if b.device.online then some b else none⟩, ?_, hmem, hprim⟩
    unfold getHeatSources
    rw [hps']

/-- Witness for C6: a two-pump set with one primary succeeds returning
that pump; a two-pump set with duplicated primaries shuts down. -/
theorem getHeatSources_primary_cardinality_witness :
    (∃ r, getHeatSources [pumpA, pumpB] [] = .ok r ∧
      r.primary ∈ [pumpA, pumpB] ∧ r.primary.isPrimary = true) ∧
    (∃ e, getHeatSources [pumpA, pumpA] [] = .error e) ∧
    (∃ e, getHeatSources [pumpB, pumpB] [] = .error e) := by
  refine ⟨?_, ?_, ?_⟩
  · exact (getHeatSources_primary_cardinality [pumpA, pumpB] []).2
      (by decide)
  · exact (getHeatSources_primary_cardinality [pumpA, pumpA] []).1
      (by decide)
  · exact (getHeatSources_primary_cardinality [pumpB, pumpB] []).1
      (by decide)

/-- C10: the action map returned by `evaluateZoneActions` never requests
contradictory actions on the same device: the activate and deactivate flags
for the blower, the circulation pump and the radiant loop are never both
set. -/
theorem evaluateZoneActions_no_contradiction
    (blowerActive pumpActive loopActive : Bool)
    (handler : Option AirHandler) (loop : Option RadiantFloorLoop)
    (canToggleHandler canToggleLoop : Bool) (temp : ℚ) (mode sysMode : Mode)
    (threshold secondaryThreshold : ℚ) :
    ((evaluateZoneActions blowerActive pumpActive loopActive handler loop
        canToggleHandler canToggleLoop temp mode sysMode threshold
        secondaryThreshold).1.activateBlower &&
      (evaluateZoneActions blowerActive pumpActive loopActive handler loop
        canToggleHandler canToggleLoop temp mode sysMode threshold
        secondaryThreshold).1.deactivateBlower) = false ∧
    ((evaluateZoneActions blowerActive pumpActive loopActive handler loop
        canToggleHandler canToggleLoop temp mode sysMode threshold
        secondaryThreshold).1.activatePump &&
      (evaluateZoneActions blowerActive pumpActive loopActive handler loop
        canToggleHandler canToggleLoop temp mode sysMode threshold
        secondaryThreshold).1.deactivatePump) = false ∧
    ((evaluateZoneActions blowerActive pumpActive loopActive handler loop
        canToggleHandler canToggleLoop temp mode sysMode threshold
        secondaryThreshold).1.activateLoop &&
      (evaluateZoneActions blowerActive pumpActive loopActive handler loop
        canToggleHandler canToggleLoop temp mode sysMode threshold
        secondaryThreshold).1.deactivateLoop) = false := by
  unfold evaluateZoneActions
  dsimp only
  (repeat' split) <;>
  refine ⟨?_, ?_, ?_⟩ <;>
  first
    | rfl
    | (cases hP : shouldBeOn temp threshold mode <;>
       cases hS : shouldBeOn temp secondaryThreshold mode <;>
       cases pumpActive <;> cases loopActive <;> rfl)

/-- C8 (amended): when the zone mode and system mode are opposite
polarities, `evaluateZoneActions` returns an error with an all-false action
map, and the cycle then forces the present distributors off directly:
`DeactivateAirHandler`/`DeactivateBlower`/`DeactivateRadiantLoop` are
issued without consulting the Device Timing Guard (the command list does
not depend on the `canToggle` inputs; only the blower deactivation is
skipped while recirculation is active). -/
theorem evaluateZoneActions_oppositeMode_spec
    (blowerActive pumpActive loopActive : Bool)
    (handler : Option AirHandler) (loop : Option RadiantFloorLoop)
    (canToggleHandler canToggleLoop : Bool) (temp : ℚ) (mode sysMode : Mode)
    (threshold secondaryThreshold : ℚ) (recircActive : Bool)
    (hopp : isOppositeMode mode sysMode = true) :
    evaluateZoneActions blowerActive pumpActive loopActive handler loop
        canToggleHandler canToggleLoop temp mode sysMode threshold
        secondaryThreshold = ({}, some ZoneEvalError.oppositeMode) ∧
    zoneCycleCommands
        (evaluateZoneActions blowerActive pumpActive loopActive handler loop
          canToggleHandler canToggleLoop temp mode sysMode threshold
          secondaryThreshold)
        handler.isSome loop.isSome recircActive =
      (if handler.isSome then
        [DevCmd.deactivateAirHandler] ++
          (if recircActive then [] else [DevCmd.deactivateBlower])
       else []) ++
      (if loop.isSome then [DevCmd.deactivateLoop] else []) := by
  have h1 : evaluateZoneActions blowerActive pumpActive loopActive handler
      loop canToggleHandler canToggleLoop temp mode sysMode threshold
      secondaryThreshold = ({}, some ZoneEvalError.oppositeMode) := by
    cases mode <;> cases sysMode <;>
      simp_all [isOppositeMode, evaluateZoneActions]
  exact ⟨h1, by rw [h1]; rfl⟩

/-- Counterexample to C8 as stated: zone mode heating against system mode
cooling with `canToggle = false` for the air handler. The evaluation
returns the opposite-mode error with no requested actions, yet the cycle
still issues `DeactivateAirHandler` and `DeactivateBlower` — the forced-off
transitions are not gated by the Device Timing Guard, so the guarded
device is commanded (and re-stamped) this cycle. -/
theorem zoneOppositeMode_guard_cex :
    (evaluateZoneActions true true false (some exHandler) none false false
        70 .heating .cooling (141/2) (135/2)).2 =
      some ZoneEvalError.oppositeMode ∧
    (evaluateZoneActions true true false (some exHandler) none false false
        70 .heating .cooling (141/2) (135/2)).1 = {} ∧
    zoneCycleCommands
        (evaluateZoneActions true true false (some exHandler) none false
          false 70 .heating .cooling (141/2) (135/2)) true false false =
      [DevCmd.deactivateAirHandler, DevCmd.deactivateBlower] := by
  refine ⟨?_, ?_, ?_⟩ <;> rfl

/-- Witness for C8 (amended), with both distributors present, recirculation
inactive and both guards denying: all three forced-off commands are
issued. -/
theorem evaluateZoneActions_oppositeMode_spec_witness :
    zoneCycleCommands
        (evaluateZoneActions true true false (some exHandler) (some exLoop)
          false false 70 .cooling .heating 72 69) true true false =
      [DevCmd.deactivateAirHandler, DevCmd.deactivateBlower,
        DevCmd.deactivateLoop] := by
  have h := evaluateZoneActions_oppositeMode_spec true true false
    (some exHandler) (some exLoop) false false 70 .cooling .heating 72 69
    false rfl
  simpa using h.2

/-- The scenario zone is not the garage (threshold selection). -/
theorem mainFloor_ne_garage : ("main_floor" = "garage") = False := by simp

/-- The scenario zone is not the buffer tank (no shutdown on disable). -/
theorem mainFloor_ne_buffer : ("main_floor" == "buffer_tank") = false := by
  simp

/-- Step 1 of the disable scenario: reading 70 at t=0. -/
theorem c4_step1 :
    processReading testFilterConfig
      ({})
      "main_floor_sensor" "main_floor" (70) 0 =
    (true, c4St (c4Hist 1 0 false 0 ⟨70, 0, true⟩) ⟨70, 0, true⟩ []) := by
  norm_num [processReading, newHistory, setEntry, checkDisableThreshold,
    addToHistory, analyzeBootstrapHistory, bootScan,
    detectStableNewBaseline, monoScan, listMean, listVariance,
    isAnomalousReading, isGoodReading, zoneThreshold, testFilterConfig,
    List.lookup, c4St, c4Hist, c4Temps, lg6, mainFloor_ne_garage,
    mainFloor_ne_buffer, abs_eq_max_neg, max_def]

/-- Step 2 of the disable scenario: reading 71 at t=30. -/
theorem c4_step2 :
    processReading testFilterConfig
      (c4St (c4Hist 1 0 false 0 ⟨70, 0, true⟩) ⟨70, 0, true⟩ [])
      "main_floor_sensor" "main_floor" (71) 30 =
    (true, c4St (c4Hist 2 0 false 0 ⟨71, 30, true⟩) ⟨71, 30, true⟩ []) := by
  norm_num [processReading, newHistory, setEntry, checkDisableThreshold,
    addToHistory, analyzeBootstrapHistory, bootScan,
    detectStableNewBaseline, monoScan, listMean, listVariance,
    isAnomalousReading, isGoodReading, zoneThreshold, testFilterConfig,
    List.lookup, c4St, c4Hist, c4Temps, lg6, mainFloor_ne_garage,
    mainFloor_ne_buffer, abs_eq_max_neg, max_def]

/-- Step 3 of the disable scenario: reading 141/2 at t=60. -/
theorem c4_step3 :
    processReading testFilterConfig
      (c4St (c4Hist 2 0 false 0 ⟨71, 30, true⟩) ⟨71, 30, true⟩ [])
      "main_floor_sensor" "main_floor" (141/2) 60 =
    (true, c4St (c4Hist 3 0 false 0 ⟨141/2, 60, true⟩) ⟨141/2, 60, true⟩ []) := by
  norm_num [processReading, newHistory, setEntry, checkDisableThreshold,
    addToHistory, analyzeBootstrapHistory, bootScan,
    detectStableNewBaseline, monoScan, listMean, listVariance,
    isAnomalousReading, isGoodReading, zoneThreshold, testFilterConfig,
    List.lookup, c4St, c4Hist, c4Temps, lg6, mainFloor_ne_garage,
    mainFloor_ne_buffer, abs_eq_max_neg, max_def]

/-- Step 4 of the disable scenario: reading 71 at t=90. -/
theorem c4_step4 :
    processReading testFilterConfig
      (c4St (c4Hist 3 0 false 0 ⟨141/2, 60, true⟩) ⟨141/2, 60, true⟩ [])
      "main_floor_sensor" "main_floor" (71) 90 =
    (true, c4St (c4Hist 4 0 false 0 ⟨71, 90, true⟩) ⟨71, 90, true⟩ []) := by
  norm_num [processReading, newHistory, setEntry, checkDisableThreshold,
    addToHistory, analyzeBootstrapHistory, bootScan,
    detectStableNewBaseline, monoScan, listMean, listVariance,
    isAnomalousReading, isGoodReading, zoneThreshold, testFilterConfig,
    List.lookup, c4St, c4Hist, c4Temps, lg6, mainFloor_ne_garage,
    mainFloor_ne_buffer, abs_eq_max_neg, max_def]

/-- Step 5 of the disable scenario: reading 70 at t=120. -/
theorem c4_step5 :
    processReading testFilterConfig
      (c4St (c4Hist 4 0 false 0 ⟨71, 90, true⟩) ⟨71, 90, true⟩ [])
      "main_floor_sensor" "main_floor" (70) 120 =
    (true, c4St (c4Hist 5 0 false 0 ⟨70, 120, true⟩) ⟨70, 120, true⟩ []) := by
  norm_num [processReading, newHistory, setEntry, checkDisableThreshold,
    addToHistory, analyzeBootstrapHistory, bootScan,
    detectStableNewBaseline, monoScan, listMean, listVariance,
    isAnomalousReading, isGoodReading, zoneThreshold, testFilterConfig,
    List.lookup, c4St, c4Hist, c4Temps, lg6, mainFloor_ne_garage,
    mainFloor_ne_buffer, abs_eq_max_neg, max_def]

/-- Step 6 of the disable scenario: reading 143/2 at t=150. -/
theorem c4_step6 :
    processReading testFilterConfig
      (c4St (c4Hist 5 0 false 0 ⟨70, 120, true⟩) ⟨70, 120, true⟩ [])
      "main_floor_sensor" "main_floor" (143/2) 150 =
    (true, c4St (c4Hist 6 0 false 0 lg6) lg6 []) := by
  norm_num [processReading, newHistory, setEntry, checkDisableThreshold,
    addToHistory, analyzeBootstrapHistory, bootScan,
    detectStableNewBaseline, monoScan, listMean, listVariance,
    isAnomalousReading, isGoodReading, zoneThreshold, testFilterConfig,
    List.lookup, c4St, c4Hist, c4Temps, lg6, mainFloor_ne_garage,
    mainFloor_ne_buffer, abs_eq_max_neg, max_def]

/-- Step 7 of the disable scenario: reading 45 at t=180. -/
theorem c4_step7 :
    processReading testFilterConfig
      (c4St (c4Hist 6 0 false 0 lg6) lg6 [])
      "main_floor_sensor" "main_floor" (45) 180 =
    (false, c4St (c4Hist 7 1 false 0 lg6) lg6 []) := by
  norm_num [processReading, newHistory, setEntry, checkDisableThreshold,
    addToHistory, analyzeBootstrapHistory, bootScan,
    detectStableNewBaseline, monoScan, listMean, listVariance,
    isAnomalousReading, isGoodReading, zoneThreshold, testFilterConfig,
    List.lookup, c4St, c4Hist, c4Temps, lg6, mainFloor_ne_garage,
    mainFloor_ne_buffer, abs_eq_max_neg, max_def]

/-- Step 8 of the disable scenario: reading 40 at t=210. -/
theorem c4_step8 :
    processReading testFilterConfig
      (c4St (c4Hist 7 1 false 0 lg6) lg6 [])
      "main_floor_sensor" "main_floor" (40) 210 =
    (false, c4St (c4Hist 8 2 false 0 lg6) lg6 []) := by
  norm_num [processReading, newHistory, setEntry, checkDisableThreshold,
    addToHistory, analyzeBootstrapHistory, bootScan,
    detectStableNewBaseline, monoScan, listMean, listVariance,
    isAnomalousReading, isGoodReading, zoneThreshold, testFilterConfig,
    List.lookup, c4St, c4Hist, c4Temps, lg6, mainFloor_ne_garage,
    mainFloor_ne_buffer, abs_eq_max_neg, max_def]

/-- Step 9 of the disable scenario: reading 38 at t=240. -/
theorem c4_step9 :
    processReading testFilterConfig
      (c4St (c4Hist 8 2 false 0 lg6) lg6 [])
      "main_floor_sensor" "main_floor" (38) 240 =
    (false, c4St (c4Hist 9 3 false 0 lg6) lg6 []) := by
  norm_num [processReading, newHistory, setEntry, checkDisableThreshold,
    addToHistory, analyzeBootstrapHistory, bootScan,
    detectStableNewBaseline, monoScan, listMean, listVariance,
    isAnomalousReading, isGoodReading, zoneThreshold, testFilterConfig,
    List.lookup, c4St, c4Hist, c4Temps, lg6, mainFloor_ne_garage,
    mainFloor_ne_buffer, abs_eq_max_neg, max_def]

/-- Step 10 of the disable scenario: reading 35 at t=270. -/
theorem c4_step10 :
    processReading testFilterConfig
      (c4St (c4Hist 9 3 false 0 lg6) lg6 [])
      "main_floor_sensor" "main_floor" (35) 270 =
    (false, c4St (c4Hist 10 4 false 0 lg6) lg6 []) := by
  norm_num [processReading, newHistory, setEntry, checkDisableThreshold,
    addToHistory, analyzeBootstrapHistory, bootScan,
    detectStableNewBaseline, monoScan, listMean, listVariance,
    isAnomalousReading, isGoodReading, zoneThreshold, testFilterConfig,
    List.lookup, c4St, c4Hist, c4Temps, lg6, mainFloor_ne_garage,
    mainFloor_ne_buffer, abs_eq_max_neg, max_def]

/-- Step 11 of the disable scenario: reading 32 at t=300. -/
theorem c4_step11 :
    processReading testFilterConfig
      (c4St (c4Hist 10 4 false 0 lg6) lg6 [])
      "main_floor_sensor" "main_floor" (32) 300 =
    (false, c4St (c4Hist 11 5 false 0 lg6) lg6 []) := by
  norm_num [processReading, newHistory, setEntry, checkDisableThreshold,
    addToHistory, analyzeBootstrapHistory, bootScan,
    detectStableNewBaseline, monoScan, listMean, listVariance,
    isAnomalousReading, isGoodReading, zoneThreshold, testFilterConfig,
    List.lookup, c4St, c4Hist, c4Temps, lg6, mainFloor_ne_garage,
    mainFloor_ne_buffer, abs_eq_max_neg, max_def]

/-- Step 12 of the disable scenario: reading 30 at t=330. -/
theorem c4_step12 :
    processReading testFilterConfig
      (c4St (c4Hist 11 5 false 0 lg6) lg6 [])
      "main_floor_sensor" "main_floor" (30) 330 =
    (false, c4St (c4Hist 12 6 true 330 lg6) lg6 [Notif.sensorFailure "main_floor" 30 (143/2)]) := by
  norm_num [processReading, newHistory, setEntry, checkDisableThreshold,
    addToHistory, analyzeBootstrapHistory, bootScan,
    detectStableNewBaseline, monoScan, listMean, listVariance,
    isAnomalousReading, isGoodReading, zoneThreshold, testFilterConfig,
    List.lookup, c4St, c4Hist, c4Temps, lg6, mainFloor_ne_garage,
    mainFloor_ne_buffer, abs_eq_max_neg, max_def]

/-- C4: for a non-garage sensor under the test configuration (six
anomalies to disable, 5 °F steady-state delta) whose bootstrap readings
`[70, 71, 70.5, 71, 70, 71.5]` leave a last-good baseline of 71.5 °F
(≈71 °F), the subsequent sequence `[45, 40, 38, 35, 32, 30]` is rejected in
full — neither the stable-baseline nor the gradual-drift recovery check
accepts any reading — the anomaly counter ends at 6, the sensor is marked
disabled, and exactly one disable notification fires (and no shutdown,
since the zone is not the buffer tank). -/
theorem processReading_disable_scenario :
    (runReadings testFilterConfig "main_floor_sensor" "main_floor" 30 0 {}
        [70, 71, 141/2, 71, 70, 143/2, 45, 40, 38, 35, 32, 30]).1 =
      [true, true, true, true, true, true,
        false, false, false, false, false, false] ∧
    ((runReadings testFilterConfig "main_floor_sensor" "main_floor" 30 0 {}
        [70, 71, 141/2, 71, 70, 143/2, 45, 40, 38, 35, 32, 30]).2.history.lookup
        "main_floor_sensor").map
      (fun h => (h.anomalyCount, h.disabled,
        h.lastGoodReading.temperature)) = some (6, true, 143/2) ∧
    (runReadings testFilterConfig "main_floor_sensor" "main_floor" 30 0 {}
        [70, 71, 141/2, 71, 70, 143/2, 45, 40, 38, 35, 32, 30]).2.notifications =
      [Notif.sensorFailure "main_floor" 30 (143/2)] ∧
    (runReadings testFilterConfig "main_floor_sensor" "main_floor" 30 0 {}
        [70, 71, 141/2, 71, 70, 143/2, 45, 40, 38, 35, 32, 30]).2.shutdownCalled
      = false := by
  have e : runReadings testFilterConfig "main_floor_sensor" "main_floor"
      30 0 {} [70, 71, 141/2, 71, 70, 143/2, 45, 40, 38, 35, 32, 30] =
      ([true, true, true, true, true, true, false, false, false, false,
        false, false],
       c4St (c4Hist 12 6 true 330 lg6) lg6
         [Notif.sensorFailure "main_floor" 30 (143/2)]) := by
    norm_num [runReadings, c4_step1, c4_step2, c4_step3, c4_step4, c4_step5,
      c4_step6, c4_step7, c4_step8, c4_step9, c4_step10, c4_step11,
      c4_step12]
  rw [e]
  refine ⟨rfl, ?_, rfl, rfl⟩
  norm_num [c4St, c4Hist, lg6, List.lookup]

/-- The scenario zone is not the garage (threshold selection). -/
theorem basement_ne_garage : ("basement" = "garage") = False := by simp

/-- Step 1 of the bootstrap-outlier scenario: reading 45 at
t=0. -/
theorem c9_step1 :
    processReading testFilterConfig
      ({})
      "basement_sensor" "basement" (45) 0 =
    (true, c9St (c9Hist 1 0 ⟨45, 0, true⟩) ⟨45, 0, true⟩) := by
  norm_num [processReading, newHistory, setEntry, checkDisableThreshold,
    addToHistory, analyzeBootstrapHistory, bootScan,
    detectStableNewBaseline, monoScan, listMean, listVariance,
    isAnomalousReading, isGoodReading, zoneThreshold, testFilterConfig,
    List.lookup, c9St, c9Hist, c9Temps, basement_ne_garage,
    abs_eq_max_neg, max_def]

/-- Step 2 of the bootstrap-outlier scenario: reading 67 at
t=30. -/
theorem c9_step2 :
    processReading testFilterConfig
      (c9St (c9Hist 1 0 ⟨45, 0, true⟩) ⟨45, 0, true⟩)
      "basement_sensor" "basement" (67) 30 =
    (true, c9St (c9Hist 2 0 ⟨67, 30, true⟩) ⟨67, 30, true⟩) := by
  norm_num [processReading, newHistory, setEntry, checkDisableThreshold,
    addToHistory, analyzeBootstrapHistory, bootScan,
    detectStableNewBaseline, monoScan, listMean, listVariance,
    isAnomalousReading, isGoodReading, zoneThreshold, testFilterConfig,
    List.lookup, c9St, c9Hist, c9Temps, basement_ne_garage,
    abs_eq_max_neg, max_def]

/-- Step 3 of the bootstrap-outlier scenario: reading 67 at
t=60. -/
theorem c9_step3 :
    processReading testFilterConfig
      (c9St (c9Hist 2 0 ⟨67, 30, true⟩) ⟨67, 30, true⟩)
      "basement_sensor" "basement" (67) 60 =
    (true, c9St (c9Hist 3 0 ⟨67, 60, true⟩) ⟨67, 60, true⟩) := by
  norm_num [processReading, newHistory, setEntry, checkDisableThreshold,
    addToHistory, analyzeBootstrapHistory, bootScan,
    detectStableNewBaseline, monoScan, listMean, listVariance,
    isAnomalousReading, isGoodReading, zoneThreshold, testFilterConfig,
    List.lookup, c9St, c9Hist, c9Temps, basement_ne_garage,
    abs_eq_max_neg, max_def]

/-- Step 4 of the bootstrap-outlier scenario: reading 68 at
t=90. -/
theorem c9_step4 :
    processReading testFilterConfig
      (c9St (c9Hist 3 0 ⟨67, 60, true⟩) ⟨67, 60, true⟩)
      "basement_sensor" "basement" (68) 90 =
    (true, c9St (c9Hist 4 0 ⟨68, 90, true⟩) ⟨68, 90, true⟩) := by
  norm_num [processReading, newHistory, setEntry, checkDisableThreshold,
    addToHistory, analyzeBootstrapHistory, bootScan,
    detectStableNewBaseline, monoScan, listMean, listVariance,
    isAnomalousReading, isGoodReading, zoneThreshold, testFilterConfig,
    List.lookup, c9St, c9Hist, c9Temps, basement_ne_garage,
    abs_eq_max_neg, max_def]

/-- Step 5 of the bootstrap-outlier scenario: reading 67 at
t=120. -/
theorem c9_step5 :
    processReading testFilterConfig
      (c9St (c9Hist 4 0 ⟨68, 90, true⟩) ⟨68, 90, true⟩)
      "basement_sensor" "basement" (67) 120 =
    (true, c9St (c9Hist 5 0 ⟨67, 120, true⟩) ⟨67, 120, true⟩) := by
  norm_num [processReading, newHistory, setEntry, checkDisableThreshold,
    addToHistory, analyzeBootstrapHistory, bootScan,
    detectStableNewBaseline, monoScan, listMean, listVariance,
    isAnomalousReading, isGoodReading, zoneThreshold, testFilterConfig,
    List.lookup, c9St, c9Hist, c9Temps, basement_ne_garage,
    abs_eq_max_neg, max_def]

/-- Step 6 of the bootstrap-outlier scenario: reading 66 at
t=150. -/
theorem c9_step6 :
    processReading testFilterConfig
      (c9St (c9Hist 5 0 ⟨67, 120, true⟩) ⟨67, 120, true⟩)
      "basement_sensor" "basement" (66) 150 =
    (true, c9St (c9Hist 6 1 ⟨66, 150, true⟩) ⟨66, 150, true⟩) := by
  norm_num [processReading, newHistory, setEntry, checkDisableThreshold,
    addToHistory, analyzeBootstrapHistory, bootScan,
    detectStableNewBaseline, monoScan, listMean, listVariance,
    isAnomalousReading, isGoodReading, zoneThreshold, testFilterConfig,
    List.lookup, c9St, c9Hist, c9Temps, basement_ne_garage,
    abs_eq_max_neg, max_def]

/-- Step 7 of the bootstrap-outlier scenario: reading 67 at
t=180. -/
theorem c9_step7 :
    processReading testFilterConfig
      (c9St (c9Hist 6 1 ⟨66, 150, true⟩) ⟨66, 150, true⟩)
      "basement_sensor" "basement" (67) 180 =
    (true, c9St (c9Hist 7 1 ⟨67, 180, true⟩) ⟨67, 180, true⟩) := by
  norm_num [processReading, newHistory, setEntry, checkDisableThreshold,
    addToHistory, analyzeBootstrapHistory, bootScan,
    detectStableNewBaseline, monoScan, listMean, listVariance,
    isAnomalousReading, isGoodReading, zoneThreshold, testFilterConfig,
    List.lookup, c9St, c9Hist, c9Temps, basement_ne_garage,
    abs_eq_max_neg, max_def]

/-- Counterexample to C9 as stated: the bootstrap `[45,67,67,68,67,66]`
leaves one retroactive anomaly (counter 1, baseline 66). The next reading
(67) is valid, within the 5 °F threshold, and processed for an enabled
sensor whose bootstrap is complete; it is accepted and becomes the new
last-good value — but the anomaly counter stays at 1 instead of resetting
to zero, because the source resets it only once the history has grown
beyond the bootstrap size (`len(history.Readings) > maxAnomalies`). -/
theorem processReading_counter_reset_cex :
    (c9Hist 6 1 ⟨66, 150, true⟩).disabled = false ∧
    (c9Hist 6 1 ⟨66, 150, true⟩).readings.length =
      testFilterConfig.maxAnomalies ∧
    |(67 : ℚ) - (c9Hist 6 1 ⟨66, 150, true⟩).lastGoodReading.temperature| ≤
      zoneThreshold testFilterConfig "basement" ∧
    runReadings testFilterConfig "basement_sensor" "basement" 30 0 {}
        [45, 67, 67, 68, 67, 66, 67] =
      ([true, true, true, true, true, true, true],
       c9St (c9Hist 7 1 ⟨67, 180, true⟩) ⟨67, 180, true⟩) := by
  refine ⟨rfl, rfl, ?_, ?_⟩
  · norm_num [c9Hist, zoneThreshold, testFilterConfig, basement_ne_garage,
      abs_eq_max_neg, max_def]
  · norm_num [runReadings, c9_step1, c9_step2, c9_step3, c9_step4, c9_step5,
      c9_step6, c9_step7]

/-- Updating a key and looking it up returns the new value. -/
theorem lookup_setEntry_self {α : Type} (l : List (String × α)) (k : String)
    (v : α) : (setEntry l k v).lookup k = some v := by
  induction l with
  | nil => simp [setEntry, List.lookup]
  | cons kv rest ih =>
    rcases kv with ⟨k1, v1⟩
    by_cases hk : k1 = k
    · simp [setEntry, hk, List.lookup]
    · have hbeq : (k == k1) = false := by
        simp only [beq_eq_false_iff_ne, ne_eq]
        exact fun he => hk he.symm
      simp [setEntry, hk, List.lookup, hbeq, ih]

/-- Lemma: `addToHistory` only touches the reading buffer. -/
theorem addToHistory_fields (h : ReadingHistory) (r : Reading) :
    (addToHistory h r).anomalyCount = h.anomalyCount ∧
    (addToHistory h r).recoveryCount = h.recoveryCount ∧
    (addToHistory h r).lastGoodReading = h.lastGoodReading ∧
    (addToHistory h r).disabled = h.disabled := by
  unfold addToHistory
  split <;> exact ⟨rfl, rfl, rfl, rfl⟩

/-- C9 (amended): for an enabled sensor that has completed bootstrap and
has accepted at least one reading since (history strictly longer than the
bootstrap window), a valid reading within the per-zone delta threshold of
the last-good value is accepted, becomes the new last-good reading (and is
published), and resets the anomaly counter to zero, also clearing the
recovery counter. (On the very first reading after bootstrap — history
length still equal to the window — the reading is accepted and becomes
last-good, but the counter is left unchanged; see the counterexample.) -/
theorem processReading_good_reading_spec
    (cfg : FilterConfig) (s : FilterState) (id zone : String)
    (temp ts : ℚ) (h : ReadingHistory)
    (hh : s.history.lookup id = some h)
    (hdis : h.disabled = false)
    (hlen : h.readings.length > cfg.maxAnomalies)
    (hvalid : temp > 0)
    (hdelta : |temp - h.lastGoodReading.temperature| ≤
      zoneThreshold cfg h.sensorZone) :
    (processReading cfg s id zone temp ts).1 = true ∧
    ((processReading cfg s id zone temp ts).2.history.lookup id).map
      (fun hf => (hf.anomalyCount, hf.recoveryCount, hf.lastGoodReading)) =
      some (0, 0, (⟨temp, ts, true⟩ : Reading)) ∧
    (processReading cfg s id zone temp ts).2.readings.lookup id =
      some ⟨temp, ts, true⟩ := by
  have hiso : isAnomalousReading cfg h temp = false := by
    unfold isAnomalousReading
    by_cases h0 : h.lastGoodReading.temperature = 0
    · simp [h0]
    · simp [h0, not_lt.mpr hdelta]
  have hnb : ¬(h.readings.length < cfg.maxAnomalies) := Nat.lt_asymm hlen
  simp only [processReading, hh, Option.getD_some, hvalid, hdis, hiso,
    hnb, hlen, decide_True, Bool.true_eq_false, if_false, if_true,
    decide_eq_true_eq, Bool.false_eq_true, if_pos, gt_iff_lt, not_lt]
  norm_num [hvalid, hiso, hdis, hnb, hlen, lookup_setEntry_self,
    (addToHistory_fields _ _).1, (addToHistory_fields _ _).2.1,
    (addToHistory_fields _ _).2.2.1]

/-- Witness for C9 (amended): in the disable scenario state after seven
readings (anomaly counter 1), a reading of 70 at t=240 is within 5 °F of
the 71.5 °F baseline; it is accepted, published, becomes last-good, and
resets the counter. -/
theorem processReading_good_reading_spec_witness :
    (processReading testFilterConfig
        (c4St (c4Hist 7 1 false 0 lg6) lg6 [])
        "main_floor_sensor" "main_floor" 70 240).1 = true ∧
    (((processReading testFilterConfig
        (c4St (c4Hist 7 1 false 0 lg6) lg6 [])
        "main_floor_sensor" "main_floor" 70 240).2.history.lookup
          "main_floor_sensor").map
      (fun hf => (hf.anomalyCount, hf.recoveryCount, hf.lastGoodReading)) =
      some (0, 0, (⟨70, 240, true⟩ : Reading))) := by
  have h := processReading_good_reading_spec testFilterConfig
    (c4St (c4Hist 7 1 false 0 lg6) lg6 [])
    "main_floor_sensor" "main_floor" 70 240 (c4Hist 7 1 false 0 lg6)
    (by simp [c4St, List.lookup]) rfl
    (by norm_num [c4Hist, c4Temps, testFilterConfig])
    (by norm_num)
    (by norm_num [c4Hist, lg6, zoneThreshold, testFilterConfig,
      mainFloor_ne_garage, abs_eq_max_neg, max_def])
  exact ⟨h.1, h.2.1⟩

/-- C7 (amended): a reading rejected by the filter — rejected while the
sensor is disabled, or rejected as anomalous with no smart-recovery
acceptance — is not accepted, and the published reading for the sensor
becomes the frozen last-good reading. A consumer calling `GetTemperature`
then receives that last-good temperature with validity `true` only while
the last-good reading is valid and not stale (no older than twice the poll
interval); once it is older, `GetTemperature` returns `(0, false)` even
though the rejection persists. -/
theorem processReading_rejection_spec
    (cfg : FilterConfig) (s : FilterState) (id zone : String)
    (temp ts : ℚ) (h : ReadingHistory)
    (hh : s.history.lookup id = some h)
    (hvalid : temp > 0)
    (hboot : ¬(h.readings.length < cfg.maxAnomalies))
    (hrej : (h.disabled = true ∧ isGoodReading cfg h temp = false) ∨
            (h.disabled = false ∧ isAnomalousReading cfg h temp = true ∧
             detectStableNewBaseline cfg
               (addToHistory h ⟨temp, ts, true⟩) = false)) :
    (processReading cfg s id zone temp ts).1 = false ∧
    (processReading cfg s id zone temp ts).2.readings.lookup id =
      some h.lastGoodReading ∧
    (∀ now, h.lastGoodReading.valid = true →
      now - h.lastGoodReading.timestamp ≤ 2 * cfg.pollInterval →
      getTemperature cfg (processReading cfg s id zone temp ts).2 id now =
        (h.lastGoodReading.temperature, true)) ∧
    (∀ now, now - h.lastGoodReading.timestamp > 2 * cfg.pollInterval →
      getTemperature cfg (processReading cfg s id zone temp ts).2 id now =
        (0, false)) := by
  have hmain : (processReading cfg s id zone temp ts).1 = false ∧
      (processReading cfg s id zone temp ts).2.readings.lookup id =
        some h.lastGoodReading := by
    rcases hrej with ⟨hdis, hgood⟩ | ⟨hdis, hiso, hdet⟩
    · constructor <;>
        simp [processReading, hh, hvalid, hboot, hdis, hgood,
          lookup_setEntry_self]
    · constructor <;>
        simp [processReading, hh, hvalid, hboot, hdis, hiso, hdet,
          lookup_setEntry_self]
  refine ⟨hmain.1, hmain.2, ?_, ?_⟩
  · intro now hv hfresh
    unfold getTemperature
    rw [hmain.2]
    simp [not_lt.mpr hfresh, hv]
  · intro now hstale
    unfold getTemperature
    rw [hmain.2]
    simp [hstale]

/-- Counterexample to C7 as stated: after the disable-scenario bootstrap
(baseline 71.5 °F stamped at t=150) and two rejected readings (45 at t=180,
40 at t=210), the rejection persists (38 at t=240 is also rejected), yet a
consumer calling `GetTemperature` at t=240 receives `(0, false)` — not the
frozen last-good value with validity `true` — because the republished
last-good reading is by then older than twice the 30 s poll interval and
fails the staleness check. -/
theorem getTemperature_stale_rejection_cex :
    runReadings testFilterConfig "main_floor_sensor" "main_floor" 30 0 {}
        [70, 71, 141/2, 71, 70, 143/2, 45, 40] =
      ([true, true, true, true, true, true, false, false],
       c4St (c4Hist 8 2 false 0 lg6) lg6 []) ∧
    (c4St (c4Hist 8 2 false 0 lg6) lg6 []).readings.lookup
        "main_floor_sensor" = some lg6 ∧
    lg6.valid = true ∧
    (c4Hist 8 2 false 0 lg6).disabled = false ∧
    (processReading testFilterConfig (c4St (c4Hist 8 2 false 0 lg6) lg6 [])
        "main_floor_sensor" "main_floor" 38 240).1 = false ∧
    getTemperature testFilterConfig (c4St (c4Hist 8 2 false 0 lg6) lg6 [])
        "main_floor_sensor" 240 = (0, false) := by
  refine ⟨?_, rfl, rfl, rfl, ?_, ?_⟩
  · norm_num [runReadings, c4_step1, c4_step2, c4_step3, c4_step4,
      c4_step5, c4_step6, c4_step7, c4_step8]
  · rw [c4_step9]
  · norm_num [getTemperature, c4St, List.lookup, lg6, testFilterConfig]

/-- Witness for C7 (amended): the rejection of reading 40 at t=210
republishes the 71.5 °F last-good reading, and a consumer reading one poll
interval later (t=209 < 150 + 60) still receives `(71.5, true)`. -/
theorem processReading_rejection_spec_witness :
    (processReading testFilterConfig (c4St (c4Hist 7 1 false 0 lg6) lg6 [])
        "main_floor_sensor" "main_floor" 40 210).1 = false ∧
    getTemperature testFilterConfig
        (processReading testFilterConfig
          (c4St (c4Hist 7 1 false 0 lg6) lg6 [])
          "main_floor_sensor" "main_floor" 40 210).2
        "main_floor_sensor" 209 = (143/2, true) := by
  have h := processReading_rejection_spec testFilterConfig
    (c4St (c4Hist 7 1 false 0 lg6) lg6 []) "main_floor_sensor" "main_floor"
    40 210 (c4Hist 7 1 false 0 lg6)
    (by simp [c4St, List.lookup]) (by norm_num)
    (by norm_num [c4Hist, c4Temps, testFilterConfig])
    (Or.inr ⟨rfl,
      by norm_num [isAnomalousReading, c4Hist, lg6, zoneThreshold,
        testFilterConfig, mainFloor_ne_garage, abs_eq_max_neg, max_def],
      by norm_num [detectStableNewBaseline, addToHistory, c4Hist, c4Temps,
        lg6, testFilterConfig, listMean, listVariance, monoScan,
        zoneThreshold, mainFloor_ne_garage, abs_eq_max_neg, max_def]⟩)
  refine ⟨h.1, ?_⟩
  have hg := h.2.2.1 209 rfl (by norm_num [c4Hist, lg6, testFilterConfig])
  simpa [lg6] using hg

end Hvac
